import Mathlib

/-!
Verification of the gateway event-decoding core of the `panda` Discord
client library (`src/models/gateway/events/mod.rs` and
`src/models/channel/message.rs`), as a shallow embedding in Lean 4.

The embedding follows the Rust source: JSON values model
`serde_json::Value`, decoding functions model the `serde` derived
deserializers field by field, `Event.try_from` models
`impl TryFrom<Payload> for Event`, and `handle_dispatch` models the
dispatch-tag resolution.  Rust code that can panic (e.g. `.unwrap()` on a
`Result`) is modelled with an explicit `panicked` outcome, so that
uncontrolled aborts are distinguishable from return-value errors.
-/

namespace Panda

/-- A JSON value, modelling `serde_json::Value`.  Objects are association
lists; `serde_json` maps have unique keys, and all decoders below look up
the first occurrence of a key. -/
inductive Json where
  | null
  | bool (b : Bool)
  | num (n : Int)
  | str (s : String)
  | arr (elems : List Json)
  | obj (fields : List (String × Json))
deriving Repr

/-- The error enum `PandaError` (declared in `src/error.rs`, outside the
shown sources).  Only the variants used by the decode pipeline are
modelled; `InvalidPayloadFormat` carries the `&'static str` argument the
source passes at each use site. -/
inductive PandaError where
  | InvalidPayloadFormat (which : String)
  | UnexpectedPayloadReceived
deriving Repr, DecidableEq

/-- Outcome of running a piece of Rust code returning `Result<α, PandaError>`:
an `Ok` value, an `Err` value, or a panic (uncontrolled abort, e.g. from
`.unwrap()` on an `Err`). -/
inductive RustOutcome (α : Type) where
  | ok (val : α)
  | err (e : PandaError)
  | panicked
deriving Repr

/-- Modelled from the spec: the Frame Envelope
`{op: integer, d: optional untyped value, s: optional integer, t: optional string}`
(spec §3, §6).  The `Payload` struct itself lives in
`src/models/gateway/payload.rs`, which is not among the shown sources; the
spec resolves opcodes by their integer value (0 dispatch, 7 reconnect,
9 invalid session, 10 hello, 11 heartbeat ack), so `op` is taken as the
raw integer. -/
structure Payload where
  op : Nat
  d : Option Json
  s : Option Nat
  t : Option String

/-- First-match lookup of a key in a JSON object's field list. -/
def lookupField (fields : List (String × Json)) (key : String) : Option Json :=
  match fields with
  | [] => none
  | (k, v) :: rest => if k = key then some v else lookupField rest key

/-- serde decoding of a Rust `String` from a JSON value. -/
def decodeString : Json → Option String
  | .str s => some s
  | _ => none

/-- serde decoding of a Rust `bool` from a JSON value. -/
def decodeBool : Json → Option Bool
  | .bool b => some b
  | _ => none

/-- serde decoding of a Rust `u64` from a JSON value: a non-negative
integer that fits in 64 bits. -/
def decodeU64 : Json → Option Nat
  | .num n => if 0 ≤ n ∧ n < 2 ^ 64 then some n.toNat else none
  | _ => none

/-- serde decoding of an `Option<T>` struct field: a missing field or an
explicit `null` decodes to `None`; any other value must decode as `T`. -/
def decodeOptField (dec : Json → Option α) : Option Json → Option (Option α)
  | none => some none
  | some .null => some none
  | some v => (dec v).map some

/-- serde decoding of a required `Vec<T>` value: a JSON array whose every
element decodes as `T`. -/
def decodeList (dec : Json → Option α) : Json → Option (List α)
  | .arr xs => xs.mapM dec
  | _ => none

/-- serde decoding of a `#[serde(default)] Vec<T>` struct field: a missing
field decodes to the empty list, a present field must be a valid array. -/
def decodeListDefault (dec : Json → Option α) : Option Json → Option (List α)
  | none => some []
  | some v => decodeList dec v

/-- Modelled from the spec: the `User` type (`src/models/user`, not among
the shown sources).  The spec (§3) describes the message author only as
"a User value, owned by copy", with no field list, so a decoded `User` is
modelled as the field list of the JSON object it was decoded from; serde
decoding of any derived struct requires a JSON object. -/
structure User where
  fields : List (String × Json)
deriving Repr

/-- serde decoding of a `User`: requires a JSON object (a derived struct
deserializer rejects every non-object value). -/
def decodeUser : Json → Option User
  | .obj fs => some ⟨fs⟩
  | _ => none

/-- Modelled from the spec: a payload struct whose own source file is not
among the shown sources (`GuildMember`, `MentionChannel`, `Attachment`,
`Embed`, `Reaction`, `MessageApplication`, `MessageReference`, and the
dispatch-event payload types other than `Message`).  Each is a serde
struct, so its decoded form is modelled as the field list of the JSON
object it was decoded from. -/
structure RawStruct where
  fields : List (String × Json)
deriving Repr

/-- serde decoding of a `RawStruct`: requires a JSON object (a derived
struct deserializer rejects every non-object value). -/
def decodeRawStruct : Json → Option RawStruct
  | .obj fs => some ⟨fs⟩
  | _ => none

/-- The `MessageKind` enum of `src/models/channel/message.rs`
(`#[repr(u8)]`, serde_repr). -/
inductive MessageKind where
  | Regular
  | RecipientAdd
  | RecipientRemove
  | Call
  | ChannelNameChange
  | ChannelIconChange
  | ChannelPinnedMessage
  | GuildMemberJoin
  | UserPremiumGuildSub
  | UserPremiumGuildSubT1
  | UserPremiumGuildSubT2
  | UserPremiumGuildSubT3
  | ChannelFollowAdd
  | GuildDiscoveryDisqualified
  | GuildDiscoveryRequalified
deriving Repr, DecidableEq

/-- serde_repr decoding of a `MessageKind` from its `u8` discriminant
(the values assigned in the source: 0–12, 14, 15; 13 is unassigned). -/
def decodeMessageKind : Json → Option MessageKind
  | .num 0 => some .Regular
  | .num 1 => some .RecipientAdd
  | .num 2 => some .RecipientRemove
  | .num 3 => some .Call
  | .num 4 => some .ChannelNameChange
  | .num 5 => some .ChannelIconChange
  | .num 6 => some .ChannelPinnedMessage
  | .num 7 => some .GuildMemberJoin
  | .num 8 => some .UserPremiumGuildSub
  | .num 9 => some .UserPremiumGuildSubT1
  | .num 10 => some .UserPremiumGuildSubT2
  | .num 11 => some .UserPremiumGuildSubT3
  | .num 12 => some .ChannelFollowAdd
  | .num 14 => some .GuildDiscoveryDisqualified
  | .num 15 => some .GuildDiscoveryRequalified
  | _ => none

/-- The `Message` struct of `src/models/channel/message.rs`, field for
field.  `kind` is serialized under the name `"type"`;
`mentions_channels`, `embed` and `reactions` carry `#[serde(default)]`;
every other non-`Option` field is required. -/
structure Message where
  id : String
  channel_id : String
  guild_id : Option String
  author : User
  member : Option RawStruct
  content : String
  timestamp : String
  edited_timestamp : Option String
  tts : Bool
  mention_everyone : Bool
  mentions : List User
  mention_roles : List String
  mentions_channels : List RawStruct
  attachments : List RawStruct
  embed : List RawStruct
  reactions : List RawStruct
  nonce : Option String
  pinned : Bool
  webhook_id : Option String
  kind : Option MessageKind
  application : Option RawStruct
  message_reference : Option RawStruct
  flags : Option Nat
deriving Repr

/-- Monadic composition of fallible decoding steps, as `serde`'s derived
deserializer threads field-decoding failures. -/
def obind (x : Option α) (f : α → Option β) : Option β :=
  match x with
  | none => none
  | some a => f a

/-- Decoding of the fields of a `Message` from a JSON object's field list,
one step per struct field, in declaration order. -/
def decodeMessageFields (fs : List (String × Json)) : Option Message :=
  obind ((lookupField fs "id").bind decodeString) fun id =>
  obind ((lookupField fs "channel_id").bind decodeString) fun channel_id =>
  obind (decodeOptField decodeString (lookupField fs "guild_id")) fun guild_id =>
  obind ((lookupField fs "author").bind decodeUser) fun author =>
  obind (decodeOptField decodeRawStruct (lookupField fs "member")) fun member =>
  obind ((lookupField fs "content").bind decodeString) fun content =>
  obind ((lookupField fs "timestamp").bind decodeString) fun timestamp =>
  obind (decodeOptField decodeString (lookupField fs "edited_timestamp"))
    fun edited_timestamp =>
  obind ((lookupField fs "tts").bind decodeBool) fun tts =>
  obind ((lookupField fs "mention_everyone").bind decodeBool) fun mention_everyone =>
  obind ((lookupField fs "mentions").bind (decodeList decodeUser)) fun mentions =>
  obind ((lookupField fs "mention_roles").bind (decodeList decodeString))
    fun mention_roles =>
  obind (decodeListDefault decodeRawStruct (lookupField fs "mentions_channels"))
    fun mentions_channels =>
  obind ((lookupField fs "attachments").bind (decodeList decodeRawStruct))
    fun attachments =>
  obind (decodeListDefault decodeRawStruct (lookupField fs "embed")) fun embed =>
  obind (decodeListDefault decodeRawStruct (lookupField fs "reactions")) fun reactions =>
  obind (decodeOptField decodeString (lookupField fs "nonce")) fun nonce =>
  obind ((lookupField fs "pinned").bind decodeBool) fun pinned =>
  obind (decodeOptField decodeString (lookupField fs "webhook_id")) fun webhook_id =>
  obind (decodeOptField decodeMessageKind (lookupField fs "type")) fun kind =>
  obind (decodeOptField decodeRawStruct (lookupField fs "application")) fun application =>
  obind (decodeOptField decodeRawStruct (lookupField fs "message_reference"))
    fun message_reference =>
  obind (decodeOptField decodeU64 (lookupField fs "flags")) fun flags =>
  some { id, channel_id, guild_id, author, member, content, timestamp,
         edited_timestamp, tts, mention_everyone, mentions, mention_roles,
         mentions_channels, attachments, embed, reactions, nonce, pinned,
         webhook_id, kind, application, message_reference, flags }

/-- The serde-derived deserializer for `Message`: a JSON object whose
fields decode as declared in the struct (unknown extra fields ignored,
required fields present with correct types, `Option` fields `None` when
absent or `null`, `#[serde(default)]` vectors empty when absent). -/
def decodeMessage : Json → Option Message
  | .obj fs => decodeMessageFields fs
  | _ => none

/-- Modelled from the spec: `MessageCreate` (its module
`message_create.rs` is not among the shown sources); the spec (§8) says a
`MESSAGE_CREATE` dispatch yields "a MessageCreate event wrapping a
Message". -/
structure MessageCreate where
  message : Message
deriving Repr

/-- The `DispatchEvent` enum of `src/models/gateway/events/mod.rs`,
variant for variant.  Payload types other than `Message` live in modules
that are not among the shown sources and are modelled by `RawStruct`. -/
inductive DispatchEvent where
  | Ready (e : RawStruct)
  | Resumed
  | Reconnect
  | ChannelCreate (e : RawStruct)
  | ChannelUpdate (e : RawStruct)
  | ChannelDelete (e : RawStruct)
  | ChannelPinsUpdate (e : RawStruct)
  | GuildCreate (e : RawStruct)
  | GuildUpdate (e : RawStruct)
  | GuildDelete (e : RawStruct)
  | GuildBanAdd (e : RawStruct)
  | GuildBanRemove (e : RawStruct)
  | GuildEmojisUpdate (e : RawStruct)
  | GuildIntegrationsUpdate (e : RawStruct)
  | GuildMemberAdd (e : RawStruct)
  | GuildMemberRemove (e : RawStruct)
  | GuildMemberUpdate (e : RawStruct)
  | GuildMembersChunk (e : RawStruct)
  | GuildRoleCreate (e : RawStruct)
  | GuildRoleUpdate (e : RawStruct)
  | GuildRoleDelete (e : RawStruct)
  | MessageCreate (e : MessageCreate)
  | MessageUpdate (e : RawStruct)
  | MessageDelete (e : RawStruct)
  | MessageDeleteBulk (e : RawStruct)
  | MessageReactionAdd (e : RawStruct)
  | MessageReactionRemove (e : RawStruct)
  | MessageReactionRemoveAll (e : RawStruct)
  | MessageReactionRemoveEmoji (e : RawStruct)
  | PresenceUpdate (e : RawStruct)
  | TypingStart (e : RawStruct)
  | UserUpdate (e : RawStruct)
  | VoiceStateUpdate (e : RawStruct)
  | VoiceServerUpdate (e : RawStruct)
deriving Repr

/-- The `Event` enum of `src/models/gateway/events/mod.rs`. -/
inductive Event where
  | Dispatch (e : DispatchEvent)
  | Reconnect
  | InvalidSession (resumable : Bool)
  | Hello (heartbeat_interval : Nat)
  | HeartbeatACK
  | Close (e : PandaError)
deriving Repr

/-- The `parse_dispatch!` macro of the source specialised to a `RawStruct`
payload: decode `d` into the variant's payload type, mapping a decode
failure to `PandaError::InvalidPayloadFormat(name)` with the literal
`name` written at the use site. -/
def parse_dispatch (d : Json) (name : String) (mk : RawStruct → DispatchEvent) :
    RustOutcome DispatchEvent :=
  match decodeRawStruct d with
  | some e => .ok (mk e)
  | none => .err (.InvalidPayloadFormat name)

/-- The `match t.as_str()` table inside `handle_dispatch`, arm for arm and
in source order, with the exact string literal the source passes to
`parse_dispatch!` in each arm (including the arms whose literal differs
from the matched tag) and the source's fallback error. -/
def dispatchFromTag (t : String) (d : Json) : RustOutcome DispatchEvent :=
  if t = "READY" then parse_dispatch d "READY" .Ready
  else if t = "RESUMED" then .ok .Resumed
  else if t = "RECONNECT" then .ok .Reconnect
  else if t = "CHANNEL_CREATE" then parse_dispatch d "CHANNEL_CREATE" .ChannelCreate
  else if t = "CHANNEL_UPDATE" then parse_dispatch d "CHANNEL_CREATE" .ChannelUpdate
  else if t = "CHANNEL_DELETE" then parse_dispatch d "CHANNEL_CREATE" .ChannelDelete
  else if t = "CHANNEL_PINS_UPDATE" then
    parse_dispatch d "CHANNEL_PINS_UPDATE" .ChannelPinsUpdate
  else if t = "GUILD_CREATE" then parse_dispatch d "GUILD_CREATE" .GuildCreate
  else if t = "GUILD_UPDATE" then parse_dispatch d "GUILD_UPDATE" .GuildUpdate
  else if t = "GUILD_DELETE" then parse_dispatch d "GUILD_DELETE" .GuildDelete
  else if t = "GUILD_BAN_ADD" then parse_dispatch d "GUILD_BAN_ADD" .GuildBanAdd
  else if t = "GUILD_BAN_REMOVE" then
    parse_dispatch d "GUILD_BAN_REMOVE" .GuildBanRemove
  else if t = "GUILD_EMOJIS_UPDATE" then
    parse_dispatch d "GUILD_EMOJIS_UPDATE" .GuildEmojisUpdate
  else if t = "GUILD_INTEGRATIONS_UPDATE" then
    parse_dispatch d "GUILD_INTEGRATIONS_UPDATE" .GuildIntegrationsUpdate
  else if t = "GUILD_MEMBER_ADD" then
    parse_dispatch d "GUILD_MEMBER_ADD" .GuildMemberAdd
  else if t = "GUILD_MEMBER_UPDATE" then
    parse_dispatch d "GUILD_MEMBER_UPDATE" .GuildMemberUpdate
  else if t = "GUILD_MEMBER_REMOVE" then
    parse_dispatch d "GUILD_MEMBER_REMOVE" .GuildMemberRemove
  else if t = "GUILD_MEMBER_CHUNK" then
    parse_dispatch d "GUILD_MEMBER_CHUNK" .GuildMembersChunk
  else if t = "GUILD_ROLE_CREATE" then
    parse_dispatch d "GUILD_ROLE_CREATE" .GuildRoleCreate
  else if t = "GUILD_ROLE_UPDATE" then
    parse_dispatch d "GUILD_ROLE_CREATE" .GuildRoleUpdate
  else if t = "GUILD_ROLE_DELETE" then
    parse_dispatch d "GUILD_ROLE_DELETE" .GuildRoleDelete
  else if t = "MESSAGE_CREATE" then
    match decodeMessage d with
    | some m => .ok (.MessageCreate ⟨m⟩)
    | none => .err (.InvalidPayloadFormat "MESSAGE_CREATE")
  else if t = "MESSAGE_UPDATE" then
    parse_dispatch d "MESSAGE_UPDATE" .MessageUpdate
  else if t = "MESSAGE_DELETE" then
    parse_dispatch d "MESSAGE_DELETE" .MessageDelete
  else if t = "MESSAGE_DELETE_BULK" then
    parse_dispatch d "MESSAGE_DELETE_BULK" .MessageDeleteBulk
  else if t = "MESSAGE_REACTION_ADD" then
    parse_dispatch d "MESSAGE_REACTION_ADD" .MessageReactionAdd
  else if t = "MESSAGE_REACTION_REMOVE" then
    parse_dispatch d "MESSAGE_REACTION_REMOVE" .MessageReactionRemove
  else if t = "MESSAGE_REACTION_REMOVE_ALL" then
    parse_dispatch d "MESSAGE_REACTION_REMOVE_ALL" .MessageReactionRemoveAll
  else if t = "MESSAGE_REACTION_REMOVE_EMOJI" then
    parse_dispatch d "MESSAGE_REACTION_REMOVE_EMOJI" .MessageReactionRemoveEmoji
  else if t = "PRESENCE_UPDATE" then
    parse_dispatch d "PRESENCE_UPDATE" .PresenceUpdate
  else if t = "TYPING_START" then parse_dispatch d "TYPING_START" .TypingStart
  else if t = "USER_UPDATE" then parse_dispatch d "USER_UPDATE" .UserUpdate
  else if t = "VOICE_STATE_UPDATE" then
    parse_dispatch d "VOICE_STATE_UPDATE" .VoiceStateUpdate
  else if t = "VOICE_SERVER_UPDATE" then
    parse_dispatch d "VOICE_SERVER_UPDATE" .VoiceServerUpdate
  else .err (.InvalidPayloadFormat "Unkown D event")

/-- The event-type tags recognized by `handle_dispatch`, in source order
(note the source matches `"GUILD_MEMBER_CHUNK"`, not
`"GUILD_MEMBERS_CHUNK"`). -/
def recognizedTags : List String :=
  ["READY", "RESUMED", "RECONNECT",
   "CHANNEL_CREATE", "CHANNEL_UPDATE", "CHANNEL_DELETE", "CHANNEL_PINS_UPDATE",
   "GUILD_CREATE", "GUILD_UPDATE", "GUILD_DELETE", "GUILD_BAN_ADD",
   "GUILD_BAN_REMOVE", "GUILD_EMOJIS_UPDATE", "GUILD_INTEGRATIONS_UPDATE",
   "GUILD_MEMBER_ADD", "GUILD_MEMBER_UPDATE", "GUILD_MEMBER_REMOVE",
   "GUILD_MEMBER_CHUNK", "GUILD_ROLE_CREATE", "GUILD_ROLE_UPDATE",
   "GUILD_ROLE_DELETE",
   "MESSAGE_CREATE", "MESSAGE_UPDATE", "MESSAGE_DELETE", "MESSAGE_DELETE_BULK",
   "MESSAGE_REACTION_ADD", "MESSAGE_REACTION_REMOVE",
   "MESSAGE_REACTION_REMOVE_ALL", "MESSAGE_REACTION_REMOVE_EMOJI",
   "PRESENCE_UPDATE", "TYPING_START", "USER_UPDATE",
   "VOICE_STATE_UPDATE", "VOICE_SERVER_UPDATE"]

/-- The function `handle_dispatch` of the source: require `d` (else
`InvalidPayloadFormat("D")`), require `t` (else
`InvalidPayloadFormat("T")`), then resolve the tag. -/
def handle_dispatch (p : Payload) : RustOutcome DispatchEvent :=
  match p.d with
  | none => .err (.InvalidPayloadFormat "D")
  | some d =>
    match p.t with
    | none => .err (.InvalidPayloadFormat "T")
    | some t => dispatchFromTag t d

/-- serde decoding of the local `struct Hello { heartbeat_interval: u64 }`
declared inside the `Opcode::Hello` arm of the source. -/
def decodeHello : Json → Option Nat
  | .obj fs => (lookupField fs "heartbeat_interval").bind decodeU64
  | _ => none

/-- The `impl TryFrom<Payload> for Event` of the source, opcode by opcode.
Spec §4.1 gives the integer values of the `Opcode` variants: 0 dispatch,
7 reconnect, 9 invalid session, 10 hello, 11 heartbeat ack; every other
opcode falls to the wildcard arm.  In the `Hello` arm the source calls
`serde_json::from_value(d).unwrap()`, so a present but malformed `d`
panics rather than returning an error; this is modelled by `panicked`. -/
def Event.try_from (p : Payload) : RustOutcome Event :=
  if p.op = 0 then
    match handle_dispatch p with
    | .ok e => .ok (.Dispatch e)
    | .err e => .err e
    | .panicked => .panicked
  else if p.op = 7 then .ok .Reconnect
  else if p.op = 9 then
    match p.d with
    | none => .err (.InvalidPayloadFormat "INVALID SESSION DATA")
    | some d =>
      match d with
      | .bool v => .ok (.InvalidSession v)
      | _ => .err (.InvalidPayloadFormat "INVALID SESSION DATA")
  else if p.op = 10 then
    match p.d with
    | none => .err (.InvalidPayloadFormat "HELLO")
    | some d =>
      match decodeHello d with
      | some n => .ok (.Hello n)
      | none => .panicked
  else if p.op = 11 then .ok .HeartbeatACK
  else .err .UnexpectedPayloadReceived

/-- Modelled from the spec: the request a Message convenience action
passes to the REST collaborator ("method name implied by the action,
channel/message identifiers, and payload", spec §6); the `HttpClient`
itself is outside the shown sources. -/
inductive RestRequest where
  | send_message (channel_id content : String)
  | send_embed (channel_id : String) (embed : RawStruct)
  | add_reaction (channel_id message_id emoji : String)
  | delete_message (channel_id message_id : String)
  | pin_message (channel_id message_id : String)
  | unpin_message (channel_id message_id : String)
deriving Repr

/-- Modelled from the spec: the collaborator's answer to a unit-returning
REST action — success, or a collaborator failure propagated verbatim
(spec §4.3, §7). -/
inductive RestResponse where
  | success
  | failure (e : String)
deriving Repr, DecidableEq

/-- Modelled from the spec: the REST collaborator handle, as the function
from requests to responses that an action awaits (spec §4.3: actions are
"thin commands that take an explicit handle to the REST collaborator and
return a result or failure from that collaborator, with no other side
effect on the Message value"). -/
def HttpClient : Type := RestRequest → RestResponse

/-- `Message::pin` of the source: `http.pin_message(&self.channel_id,
&self.id).await`.  The receiver is taken by shared reference (`&self`) in
the source and cannot be mutated; the embedding returns the message after
the call alongside the collaborator's response to state that explicitly. -/
def Message.pin (m : Message) (http : HttpClient) : RestResponse × Message :=
  (http (.pin_message m.channel_id m.id), m)

/-- `Message::unpin` of the source: `http.unpin_message(&self.channel_id,
&self.id).await`, receiver by shared reference as in `Message.pin`. -/
def Message.unpin (m : Message) (http : HttpClient) : RestResponse × Message :=
  (http (.unpin_message m.channel_id m.id), m)

/-- C1 (counterexample): a dispatch frame with an unrecognized tag such as
`"SOME_FUTURE_EVENT"` does not fail with an error carrying that tag: it
fails with the generic format error whose message is the fixed string
`"Unkown D event"`, the same for every unknown tag. -/
theorem c1_counterexample :
    Event.try_from ⟨0, some (.obj []), none, some "SOME_FUTURE_EVENT"⟩ =
      .err (.InvalidPayloadFormat "Unkown D event") ∧
    Event.try_from ⟨0, some (.obj []), none, some "ANOTHER_FUTURE_EVENT"⟩ =
      .err (.InvalidPayloadFormat "Unkown D event") ∧
    "Unkown D event" ≠ "SOME_FUTURE_EVENT" ∧
    "Unkown D event" ≠ "ANOTHER_FUTURE_EVENT" :=
  ⟨rfl, rfl, by decide, by decide⟩

/-- C1 (amended): for every dispatch frame (opcode 0, `d` and `t`
present) whose tag matches none of the recognized tags, decoding fails
with the generic format error `InvalidPayloadFormat("Unkown D event")`,
whose fixed message does not carry the unknown tag. -/
theorem c1_unknown_tag_generic_error :
    ∀ (d : Json) (s : Option Nat) (t : String), t ∉ recognizedTags →
      Event.try_from ⟨0, some d, s, some t⟩ =
        .err (.InvalidPayloadFormat "Unkown D event") := by
  intro d s t ht
  simp only [recognizedTags, List.mem_cons, List.not_mem_nil, or_false, not_or] at ht
  simp [Event.try_from, handle_dispatch, dispatchFromTag, ht]

/-- C1 (witness): the amended claim instantiated at a concrete unknown
tag. -/
theorem c1_unknown_tag_generic_error_witness :
    Event.try_from ⟨0, some (.obj []), none, some "PANDA_TEST_EVENT"⟩ =
      .err (.InvalidPayloadFormat "Unkown D event") :=
  c1_unknown_tag_generic_error (.obj []) none "PANDA_TEST_EVENT" (by decide)

/-- C2 (code bug): for opcode 10, a well-formed `d` carrying
`heartbeat_interval = 41250` yields `Hello 41250`, but a present malformed
`d` (here `{}`) makes the source call `.unwrap()` on a failed parse and
panic — an uncontrolled abort, not a format error returned as a value. -/
theorem c2_hello_panics_on_malformed :
    Event.try_from
        ⟨10, some (.obj [("heartbeat_interval", .num 41250)]), none, none⟩ =
      .ok (.Hello 41250) ∧
    Event.try_from ⟨10, some (.obj []), none, none⟩ = .panicked :=
  ⟨rfl, rfl⟩

/-- C3 (code bug): a recognized tag whose body fails structural decoding
is reported under a different tag's name: `CHANNEL_UPDATE` and
`CHANNEL_DELETE` failures are reported as `"CHANNEL_CREATE"`, and
`GUILD_ROLE_UPDATE` failures as `"GUILD_ROLE_CREATE"` (the copy-paste
defect the spec itself flags in §9). -/
theorem c3_wrong_tag_in_decode_error :
    Event.try_from ⟨0, some (.bool true), none, some "CHANNEL_UPDATE"⟩ =
      .err (.InvalidPayloadFormat "CHANNEL_CREATE") ∧
    Event.try_from ⟨0, some (.bool true), none, some "CHANNEL_DELETE"⟩ =
      .err (.InvalidPayloadFormat "CHANNEL_CREATE") ∧
    Event.try_from ⟨0, some (.bool true), none, some "GUILD_ROLE_UPDATE"⟩ =
      .err (.InvalidPayloadFormat "GUILD_ROLE_CREATE") ∧
    "CHANNEL_CREATE" ≠ "CHANNEL_UPDATE" ∧
    "GUILD_ROLE_CREATE" ≠ "GUILD_ROLE_UPDATE" :=
  ⟨rfl, rfl, rfl, by decide, by decide⟩

/-- C4: a dispatch frame with tag `MESSAGE_CREATE` and a minimally valid
message body (the required fields, with every optional key absent)
decodes to a `MessageCreate` event wrapping a `Message` whose `id`,
`channel_id`, `author`, `content`, `timestamp`, `tts`,
`mention_everyone`, `pinned` equal the corresponding inputs and whose
`embed`, `reactions` and `mentions_channels` are empty. -/
theorem c4_message_create_minimal :
    ∀ (i c cont ts : String) (tts me pin : Bool) (au : List (String × Json)),
      Event.try_from ⟨0, some (.obj
          [("id", .str i), ("channel_id", .str c), ("author", .obj au),
           ("content", .str cont), ("timestamp", .str ts), ("tts", .bool tts),
           ("mention_everyone", .bool me), ("mentions", .arr []),
           ("mention_roles", .arr []), ("attachments", .arr []),
           ("pinned", .bool pin)]), none, some "MESSAGE_CREATE"⟩ =
        .ok (.Dispatch (.MessageCreate ⟨{
          id := i, channel_id := c, guild_id := none, author := ⟨au⟩,
          member := none, content := cont, timestamp := ts,
          edited_timestamp := none, tts := tts, mention_everyone := me,
          mentions := [], mention_roles := [], mentions_channels := [],
          attachments := [], embed := [], reactions := [], nonce := none,
          pinned := pin, webhook_id := none, kind := none,
          application := none, message_reference := none,
          flags := none }⟩)) :=
  fun _ _ _ _ _ _ _ _ => rfl

/-- C5: for opcode 0, a missing `d` fails with the format error naming
`D`, and a missing `t` (with `d` present) fails with the format error
naming `T`; in both cases no `Event` is produced. -/
theorem c5_dispatch_missing_field_errors :
    (∀ (s : Option Nat) (t : Option String),
      Event.try_from ⟨0, none, s, t⟩ = .err (.InvalidPayloadFormat "D")) ∧
    (∀ (s : Option Nat) (v : Json),
      Event.try_from ⟨0, some v, s, none⟩ = .err (.InvalidPayloadFormat "T")) :=
  ⟨fun _ _ => rfl, fun _ _ => rfl⟩

/-- C6: for opcode 9, a boolean `d = b` yields `InvalidSession b`; a
missing `d`, or any non-boolean `d`, fails with the format error
`InvalidPayloadFormat("INVALID SESSION DATA")`. -/
theorem c6_invalid_session :
    (∀ (s : Option Nat) (t : Option String) (b : Bool),
      Event.try_from ⟨9, some (.bool b), s, t⟩ = .ok (.InvalidSession b)) ∧
    (∀ (s : Option Nat) (t : Option String),
      Event.try_from ⟨9, none, s, t⟩ =
        .err (.InvalidPayloadFormat "INVALID SESSION DATA")) ∧
    (∀ (s : Option Nat) (t : Option String) (v : Json),
      (∀ b, v ≠ Json.bool b) →
      Event.try_from ⟨9, some v, s, t⟩ =
        .err (.InvalidPayloadFormat "INVALID SESSION DATA")) := by
  refine ⟨fun _ _ _ => rfl, fun _ _ => rfl, fun s t v hv => ?_⟩
  cases v with
  | bool b => exact absurd rfl (hv b)
  | null => rfl
  | num n => rfl
  | str s2 => rfl
  | arr xs => rfl
  | obj fs => rfl

/-- C6 (witness): the non-boolean case instantiated at `d = "x"`. -/
theorem c6_invalid_session_witness :
    Event.try_from ⟨9, some (.str "x"), none, none⟩ =
      .err (.InvalidPayloadFormat "INVALID SESSION DATA") :=
  c6_invalid_session.2.2 none none (.str "x") (fun _ h => Json.noConfusion h)

/-- C7: every frame whose opcode lies outside `{0, 1, 7, 9, 10, 11}`
fails with `UnexpectedPayloadReceived`, whatever the shape or presence of
`d`, `s` and `t`. -/
theorem c7_unexpected_opcode :
    ∀ (op : Nat) (d : Option Json) (s : Option Nat) (t : Option String),
      op ∉ ([0, 1, 7, 9, 10, 11] : List Nat) →
      Event.try_from ⟨op, d, s, t⟩ = .err .UnexpectedPayloadReceived := by
  intro op d s t h
  simp only [List.mem_cons, List.not_mem_nil, or_false, not_or] at h
  simp [Event.try_from, h]

/-- C7 (witness): the unexpected-opcode failure at opcode 2 (and the
hypothesis checked at 2). -/
theorem c7_unexpected_opcode_witness :
    Event.try_from ⟨2, none, none, none⟩ = .err .UnexpectedPayloadReceived :=
  c7_unexpected_opcode 2 none none none (by decide)

/-- C8: the decode pipeline is a pure function of the Frame Envelope:
two runs on equal inputs produce structurally equal outcomes. -/
theorem c8_decode_deterministic :
    ∀ (p q : Payload), p = q → Event.try_from p = Event.try_from q :=
  fun _ _ h => h ▸ rfl

/-- C8 (witness): the determinism theorem instantiated at a concrete
frame. -/
theorem c8_decode_deterministic_witness :
    Event.try_from ⟨11, none, none, none⟩ = Event.try_from ⟨11, none, none, none⟩ :=
  c8_decode_deterministic ⟨11, none, none, none⟩ ⟨11, none, none, none⟩ rfl

/-- C9: `pin` and `unpin` leave the local `Message` value unchanged —
in particular its `pinned` field — for every collaborator handle and
whatever the collaborator answers; each action merely forwards the
collaborator's response to the corresponding request. -/
theorem c9_pin_unpin_leave_message_unchanged :
    ∀ (m : Message) (http : HttpClient),
      (m.pin http).2 = m ∧ (m.unpin http).2 = m ∧
      ((m.pin http).2).pinned = m.pinned ∧
      ((m.unpin http).2).pinned = m.pinned ∧
      (m.pin http).1 = http (.pin_message m.channel_id m.id) ∧
      (m.unpin http).1 = http (.unpin_message m.channel_id m.id) :=
  fun _ _ => ⟨rfl, rfl, rfl, rfl, rfl, rfl⟩

/-- C10: a dispatch frame with tag `RESUMED` (resp. `RECONNECT`) and any
present `d` decodes to the `Resumed` (resp. `Reconnect`) dispatch event
without inspecting `d`; a missing `d` still fails with the missing-`d`
format error. -/
theorem c10_resumed_reconnect :
    (∀ (d : Json) (s : Option Nat),
      Event.try_from ⟨0, some d, s, some "RESUMED"⟩ =
        .ok (.Dispatch .Resumed)) ∧
    (∀ (d : Json) (s : Option Nat),
      Event.try_from ⟨0, some d, s, some "RECONNECT"⟩ =
        .ok (.Dispatch .Reconnect)) ∧
    (∀ (s : Option Nat),
      Event.try_from ⟨0, none, s, some "RESUMED"⟩ =
        .err (.InvalidPayloadFormat "D")) ∧
    (∀ (s : Option Nat),
      Event.try_from ⟨0, none, s, some "RECONNECT"⟩ =
        .err (.InvalidPayloadFormat "D")) :=
  ⟨fun _ _ => rfl, fun _ _ => rfl, fun _ => rfl, fun _ => rfl⟩

end Panda

